import Mathlib

/-!
Shallow embedding of the customer-listing pagination and filtering core of the
repository: the data hook `src/hooks/useCustomerData.js` and the companion
cursor-pagination hook `src/hooks/useCollectionWithPaginationInCursors.js`.

Strings are modelled as `List Char`.  The remote document store (Firestore) is
modelled as an explicit list of documents passed to the read operations; a
fallible gateway read is an `Except` value.  Asynchronous fetches are split
into an initiation step (which snapshots the filter set and page index that the
JavaScript closure captures) and a resolution step (which performs the
`setState` calls), so that interleavings of overlapping fetches can be
expressed by composing resolutions in arrival order.
-/

abbrev Str := List Char

/-- Model of the JavaScript whitespace test used by `String.prototype.trim`. -/
def isJsSpace (c : Char) : Bool :=
  c = ' ' || c = '\t' || c = '\n' || c = '\r'

/-- Model of JavaScript `s.trim()`: strip leading and trailing whitespace. -/
def jsTrim (s : Str) : Str :=
  ((s.dropWhile isJsSpace).reverse.dropWhile isJsSpace).reverse

/-- Model of JavaScript `s.toLowerCase()`. -/
def toLowerStr (s : Str) : Str := s.map Char.toLower

/-- Model of JavaScript `hay.includes(needle)`: substring test. -/
def strIncludes (hay needle : Str) : Bool :=
  hay.tails.any (fun t => needle.isPrefixOf t)

/-- Model of the JavaScript idiom `x || dflt` on string-valued fields:
the fallback is taken when the field is missing (`none`) or the empty string
(falsy). Used by the document formatting in `fetchCustomers` (lines 78-90). -/
def jsOrStr (o : Option Str) (dflt : Str) : Str :=
  match o with
  | none => dflt
  | some s => if s = [] then dflt else s

/-- Model of JavaScript `Math.ceil(a / b)` for natural `a` and positive `b`,
as computed by `setTotalPages(Math.ceil(filteredList.length / pageSize))`. -/
def ceilDiv (a b : Nat) : Nat := (a + b - 1) / b

theorem le_mul_ceilDiv (a : Nat) (b : Nat) (hb : 0 < b) : a ≤ b * ceilDiv a b := by
  cases a with
  | zero => exact Nat.zero_le _
  | succ n =>
    unfold ceilDiv
    have hdiv : (n + 1 + b - 1) / b = n / b + 1 := by
      have he : n + 1 + b - 1 = n + b := by omega
      rw [he, Nat.add_div_right _ hb]
    rw [hdiv, Nat.mul_add, Nat.mul_one]
    have h := Nat.div_add_mod n b
    have h2 : n % b < b := Nat.mod_lt _ hb
    omega

theorem mul_ceilDiv_lt (a : Nat) (b : Nat) (hb : 0 < b) : b * ceilDiv a b < a + b := by
  unfold ceilDiv
  have h1 : (a + b - 1) / b * b ≤ a + b - 1 := Nat.div_mul_le_self _ _
  have h2 : b * ((a + b - 1) / b) = (a + b - 1) / b * b := Nat.mul_comm _ _
  omega

theorem ceilDiv_eq_zero_iff (a : Nat) (b : Nat) (hb : 0 < b) :
    ceilDiv a b = 0 ↔ a = 0 := by
  unfold ceilDiv
  rw [Nat.div_eq_zero_iff hb]
  omega

theorem ceilDiv_mul_cancel (k : Nat) (b : Nat) (hb : 0 < b) :
    ceilDiv (k * b) b = k := by
  unfold ceilDiv
  have h1 : k * b + b - 1 = b * k + (b - 1) := by
    have := Nat.mul_comm k b
    omega
  rw [h1, Nat.mul_add_div hb, Nat.div_eq_of_lt (by omega)]
  omega

/-! ## Documents and customers (`useCustomerData.js`) -/

/-- Raw Firestore document data for the `customer` collection: any field may be
missing.  `createdAt`/`updatedAt` timestamps are opaque naturals. -/
structure DocData where
  name : Option Str
  email : Option Str
  phone : Option Str
  location : Option Str
  postCode : Option Str
  createdAt : Option Nat
  updatedAt : Option Nat
deriving DecidableEq

/-- A stored document: Firestore document id plus data. -/
structure Doc where
  id : Nat
  data : DocData
deriving DecidableEq

/-- The formatted customer object built by `fetchCustomers` (lines 78-90):
every listed field is defined. -/
structure Customer where
  id : Nat
  name : Str
  email : Str
  phone : Str
  location : Str
  postCode : Str
  createdAt : Option Nat
  updatedAt : Option Nat
deriving DecidableEq

def unnamedCustomer : Str := "Unnamed Customer".toList

/-- Formatting of one document into a customer object, from
`useCustomerData.js` lines 78-90: document id, `||`-fallbacks for every
field. -/
def formatCustomer (d : Doc) : Customer :=
  { id := d.id
    name := jsOrStr d.data.name unnamedCustomer
    email := jsOrStr d.data.email []
    phone := jsOrStr d.data.phone []
    location := jsOrStr d.data.location []
    postCode := jsOrStr d.data.postCode []
    createdAt := d.data.createdAt
    updatedAt := d.data.updatedAt }

/-- The filter set handed to the hook: `name`, `phone`, `location`,
`postCode`; a missing entry is `none`. -/
structure Filters where
  name : Option Str
  phone : Option Str
  location : Option Str
  postCode : Option Str
deriving DecidableEq

def emptyFilters : Filters :=
  { name := none, phone := none, location := none, postCode := none }

/-- One client-side filter block of `fetchCustomers` (lines 98-126), e.g.
`if (filters.name && filters.name.trim() !== "") { filteredList =
filteredList.filter(...) }`.  The activity test is JavaScript truthiness of
the raw value conjoined with non-emptiness after trim; the predicate receives
the raw (untrimmed) value. -/
def applyFieldFilter (o : Option Str) (p : Str → Customer → Bool)
    (l : List Customer) : List Customer :=
  match o with
  | some v => if v ≠ [] ∧ jsTrim v ≠ [] then l.filter (p v) else l
  | none => l

/-- The full client-side filtering pipeline of `fetchCustomers`: format every
fetched document, then apply the name, phone, location and postCode filters in
sequence (lines 95-126).  Name and location matching lower-cases both sides;
phone and postCode matching is case-sensitive. -/
def filteredCustomers (f : Filters) (docs : List Doc) : List Customer :=
  applyFieldFilter f.postCode (fun v c => strIncludes c.postCode v)
    (applyFieldFilter f.location (fun v c => strIncludes (toLowerStr c.location) (toLowerStr v))
      (applyFieldFilter f.phone (fun v c => strIncludes c.phone v)
        (applyFieldFilter f.name (fun v c => strIncludes (toLowerStr c.name) (toLowerStr v))
          (docs.map formatCustomer))))

/-! ## Hook state and operations (`useCustomerData.js`) -/

/-- The React state owned by `useCustomerData`. -/
structure HookState where
  customers : List Customer
  loading : Bool
  error : Option Str
  currentPage : Nat
  totalItems : Nat
  totalPages : Nat
  filters : Filters
deriving DecidableEq

/-- Initial state of the hook (lines 30-40). -/
def initialHookState (initialFilters : Filters) : HookState :=
  { customers := [], loading := true, error := none, currentPage := 0,
    totalItems := 0, totalPages := 0, filters := initialFilters }

/-- The snapshot a `fetchCustomers` closure captures when it starts: the
filter set and page index current at initiation (the `useCallback`
dependencies, line 149). -/
structure FetchReq where
  filters : Filters
  page : Nat
deriving DecidableEq

def failedFetchMsg : Str := "Failed to fetch customers".toList

/-- Resolution of one in-flight `fetchCustomers` call: the `setState` calls it
performs when its gateway read completes (lines 136-148).  On success it
filters client-side, slices the page captured at initiation, and overwrites
the record list, totals and error; on failure it stores the raw error message
and clears the record list.  There is no staleness check. -/
def resolveFetch (req : FetchReq) (res : Except (Option Str) (List Doc))
    (pageSize : Nat) (s : HookState) : HookState :=
  match res with
  | Except.ok docs =>
    let filteredList := filteredCustomers req.filters docs
    let startIndex := req.page * pageSize
    let paginatedList := (filteredList.drop startIndex).take pageSize
    { s with customers := paginatedList
             totalItems := filteredList.length
             totalPages := ceilDiv filteredList.length pageSize
             error := none
             loading := false }
  | Except.error m =>
    { s with error := some (jsOrStr m failedFetchMsg)
             customers := []
             loading := false }

/-- The request snapshot taken when `fetchCustomers` starts. -/
def initiateFetch (s : HookState) : FetchReq :=
  { filters := s.filters, page := s.currentPage }

/-- A `fetchCustomers` call that runs to completion without interleaving:
initiate, receive `res` from the gateway, resolve. -/
def fetchCustomers (res : Except (Option Str) (List Doc)) (pageSize : Nat)
    (s : HookState) : HookState :=
  resolveFetch (initiateFetch s) res pageSize s

/-- Initiating a load with new filters: `setFilters` (line 44) installs the
filters, then the effect (lines 152-154) starts a fetch whose closure
snapshots the new filters and the *unchanged* current page. -/
def initiateLoad (newFilters : Filters) (s : HookState) : HookState × FetchReq :=
  let s2 := { s with filters := newFilters }
  (s2, initiateFetch s2)

/-- A load with new filters that runs to completion without interleaving. -/
def loadOp (newFilters : Filters) (res : Except (Option Str) (List Doc))
    (pageSize : Nat) (s : HookState) : HookState :=
  fetchCustomers res pageSize { s with filters := newFilters }

/-- `onNextPage` (lines 246-250). -/
def onNextPage (s : HookState) : HookState :=
  if s.currentPage < s.totalPages - 1 then
    { s with currentPage := s.currentPage + 1 }
  else s

/-- `onPrevPage` (lines 255-259). -/
def onPrevPage (s : HookState) : HookState :=
  if 0 < s.currentPage then
    { s with currentPage := s.currentPage - 1 }
  else s

def requiredIdMsg : Str := "Customer ID is required".toList

/-- `deleteCustomer` (lines 226-241): validates the id, delegates to the
gateway, and on failure rethrows the error after logging.  It performs no
`setState`: the hook state is returned unchanged in every branch. -/
def deleteCustomerOp (i : Option Str) (gw : Except Str Unit) (s : HookState) :
    Except Str Unit × HookState :=
  match i with
  | none => (Except.error requiredIdMsg, s)
  | some v =>
    if v = [] then (Except.error requiredIdMsg, s)
    else
      match gw with
      | Except.ok _ => (Except.ok (), s)
      | Except.error m => (Except.error m, s)

/-- Gateway deletion of document `i` (Firestore `deleteDoc`): ids are unique,
so the document with id `i` disappears from the collection. -/
def removeDoc (docs : List Doc) (i : Nat) : List Doc :=
  docs.filter (fun d => d.id ≠ i)

/-- Delete followed by the triggered refresh (`refreshData` →
`fetchCustomers`, as wired in `Customers.jsx`): the read runs against the
shrunken collection with the unchanged filters and page index. -/
def removeRefresh (docs : List Doc) (i : Nat) (pageSize : Nat) (s : HookState) :
    HookState :=
  fetchCustomers (Except.ok (removeDoc docs i)) pageSize s

/-! ## The gateway query issued by `fetchCustomers` -/

/-- Shape of a single gateway read: either the whole collection with no
predicates, or a native filtered/ordered/limited query. -/
inductive GatewayQuery where
  | fullCollection : GatewayQuery
  | nativeFiltered : List (Str × Str) → GatewayQuery
deriving DecidableEq

def GatewayQuery.isNative : GatewayQuery → Bool
  | GatewayQuery.fullCollection => false
  | GatewayQuery.nativeFiltered _ => true

/-- The gateway query that `fetchCustomers` builds (lines 57-64): it is
`query(customersRef)` with no where/orderBy/limit clause, for every filter
set. -/
def plannedQuery (_f : Filters) : GatewayQuery :=
  GatewayQuery.fullCollection

/-! ## The cursor-pagination hook (`useCollectionWithPaginationInCursors.js`)

The hook's queries are ordered, limited and cursor-anchored, so with a fixed
collection and no concurrent mutation the gateway's behaviour is a function of
the ordered list of matching records and of cursor *positions*.  Records are
opaque and modelled as naturals; `firstVisible`/`lastVisible` document
snapshots are modelled by the index of the snapshotted record in the ordered
collection (the refs start as `null` and are modelled by `0`, which the code
never reads before they are first assigned by a non-empty fetch). -/

/-- `coll.pageSlice` of `len` records starting at index `start`: the result of an
ordered query with a `startAfter` cursor at `start - 1` and `limit(len)`. -/
def pageSlice (coll : List Nat) (start len : Nat) : List Nat :=
  (coll.drop start).take len

/-- The React state owned by `useCollectionWithPaginationInCursors`:
`data`, `page`, `count`, `pagesNumber`, the two cursor refs and the
`pageStateRef` ledger of `(first, last)` cursor pairs. -/
structure CursorState where
  data : List Nat
  page : Nat
  count : Nat
  pagesNumber : Nat
  firstVisible : Nat
  lastVisible : Nat
  ledger : List (Nat × Nat)
  loading : Bool
deriving DecidableEq

/-- Initial state of the cursor hook (lines 25-37). -/
def initialCursorState : CursorState :=
  { data := [], page := 0, count := 0, pagesNumber := 0, firstVisible := 0,
    lastVisible := 0, ledger := [], loading := true }

/-- The `fetchData` effect body (lines 72-134) together with
`getCollectionCount` (lines 40-68), run against the ordered list of matching
records: recompute `count` and `pagesNumber`, fetch page 0 with `limit(size)`,
and when non-empty reset the cursor refs and the ledger to page 0.  The `page`
state is never written. -/
def fetchData (coll : List Nat) (size : Nat) (s : CursorState) : CursorState :=
  let totalCount := coll.length
  let totalPages := ceilDiv totalCount size
  let docs := pageSlice coll 0 size
  if docs = [] then
    { s with count := totalCount, pagesNumber := totalPages, data := [],
             loading := false }
  else
    { s with count := totalCount, pagesNumber := totalPages, data := docs,
             firstVisible := 0, lastVisible := docs.length - 1,
             ledger := [(0, docs.length - 1)], loading := false }

/-- `HandleGetNextPage` (lines 147-202): no-op while loading or on the last
page; otherwise query `startAfter(lastVisible)` with `limit(size)` and, when
non-empty, advance the cursors, push a ledger entry and increment `page`. -/
def nextPage (coll : List Nat) (size : Nat) (s : CursorState) : CursorState :=
  if s.loading = true ∨ s.pagesNumber - 1 ≤ s.page then s
  else
    let docs := pageSlice coll (s.lastVisible + 1) size
    if docs = [] then s
    else
      { s with data := docs,
               firstVisible := s.lastVisible + 1,
               lastVisible := s.lastVisible + docs.length,
               ledger := s.ledger ++ [(s.lastVisible + 1, s.lastVisible + docs.length)],
               page := s.page + 1 }

/-- `HandleGetPreviousPage` (lines 205-292): no-op while loading or on page 0;
for `page > 1` query `endBefore(firstVisible)` with `limitToLast(size)` (the
last `size` records before index `firstVisible`), pop the ledger and decrement
`page`; for `page == 1` re-fetch the initial page and reset the ledger. -/
def prevPage (coll : List Nat) (size : Nat) (s : CursorState) : CursorState :=
  if s.loading = true ∨ s.page ≤ 0 then s
  else if 1 < s.page then
    let start := s.firstVisible - size
    let docs := pageSlice coll start (s.firstVisible - start)
    if docs = [] then s
    else
      { s with data := docs,
               firstVisible := start,
               lastVisible := start + docs.length - 1,
               ledger := s.ledger.dropLast,
               page := s.page - 1 }
  else
    let docs := pageSlice coll 0 size
    if docs = [] then s
    else
      { s with data := docs, firstVisible := 0, lastVisible := docs.length - 1,
               ledger := [(0, docs.length - 1)], page := 0 }

/-- Characterization of a cursor-hook state that is consistently positioned on
page `s.page` of the ordered collection `coll`: not loading, correct count and
page total, cursors at the boundaries of the current page pageSlice, and a
non-empty current page. -/
abbrev OnPage (coll : List Nat) (size : Nat) (s : CursorState) : Prop :=
  s.loading = false ∧
  s.count = coll.length ∧
  s.pagesNumber = ceilDiv coll.length size ∧
  s.firstVisible = size * s.page ∧
  s.lastVisible + 1 = min (size * (s.page + 1)) coll.length ∧
  s.data = pageSlice coll (size * s.page) size ∧
  s.data ≠ []

/-! ## Concrete data used by witnesses and counterexamples -/

def aliceData : DocData :=
  { name := some "alice".toList, email := none, phone := none,
    location := none, postCode := none, createdAt := none, updatedAt := none }

def bobData : DocData :=
  { name := some "bob".toList, email := none, phone := none,
    location := none, postCode := none, createdAt := none, updatedAt := none }

def docsAB : List Doc := [{ id := 0, data := aliceData }, { id := 1, data := bobData }]

/-- Filter set with only a name filter "al": non-empty, one filtered field. -/
def fAl : Filters :=
  { name := some "al".toList, phone := none, location := none, postCode := none }

/-- Filter set with only a name filter "bo". -/
def fBo : Filters :=
  { name := some "bo".toList, phone := none, location := none, postCode := none }

/-! ## Basic lemmas about the embedding -/

theorem fetchCustomers_ok (docs : List Doc) (ps : Nat) (s : HookState) :
    fetchCustomers (Except.ok docs) ps s =
      { s with customers := ((filteredCustomers s.filters docs).drop (s.currentPage * ps)).take ps
               totalItems := (filteredCustomers s.filters docs).length
               totalPages := ceilDiv (filteredCustomers s.filters docs).length ps
               error := none
               loading := false } := rfl

theorem fetchCustomers_err (m : Option Str) (ps : Nat) (s : HookState) :
    fetchCustomers (Except.error m) ps s =
      { s with error := some (jsOrStr m failedFetchMsg)
               customers := []
               loading := false } := rfl

theorem jsTrim_nil : jsTrim [] = [] := rfl

theorem mem_applyFieldFilter (o : Option Str) (p : Str → Customer → Bool)
    (l : List Customer) (c : Customer) :
    c ∈ applyFieldFilter o p l ↔
      c ∈ l ∧ ∀ v, o = some v → jsTrim v ≠ [] → p v c = true := by
  cases o with
  | none => simp [applyFieldFilter]
  | some v =>
    simp only [applyFieldFilter]
    by_cases h : jsTrim v = []
    · rw [if_neg (fun hc => hc.2 h)]
      constructor
      · intro hc
        refine ⟨hc, ?_⟩
        intro v2 he hne
        cases he
        exact absurd h hne
      · exact fun hc => hc.1
    · have hv : v ≠ [] := by
        intro hnil
        rw [hnil] at h
        exact h jsTrim_nil
      rw [if_pos ⟨hv, h⟩, List.mem_filter]
      constructor
      · intro hc
        refine ⟨hc.1, ?_⟩
        intro v2 he _
        cases he
        exact hc.2
      · intro hc
        exact ⟨hc.1, hc.2 v rfl h⟩

theorem applyFieldFilter_subset (o : Option Str) (p : Str → Customer → Bool)
    (l : List Customer) : applyFieldFilter o p l ⊆ l := by
  cases o with
  | none => exact fun a h => h
  | some v =>
    simp only [applyFieldFilter]
    split
    · exact (List.filter_sublist _).subset
    · exact fun a h => h

theorem strIncludes_iff_infix (hay needle : Str) :
    strIncludes hay needle = true ↔ needle <:+: hay := by
  unfold strIncludes
  rw [List.any_eq_true]
  constructor
  · rintro ⟨t, ht, hpre⟩
    rw [List.mem_tails t hay] at ht
    rw [List.isPrefixOf_iff_prefix] at hpre
    exact List.infix_iff_prefix_suffix.mpr ⟨t, hpre, ht⟩
  · intro h
    obtain ⟨t, hpre, hsuf⟩ := List.infix_iff_prefix_suffix.mp h
    exact ⟨t, (List.mem_tails t hay).mpr hsuf, List.isPrefixOf_iff_prefix.mpr hpre⟩

/-! ## Claim C1 -/

/-- Claim C1: for every filter set and positive page size, after a successful
fetch the state satisfies `totalPages = ceil(totalItems / pageSize)` — stated
by the defining bounds of the ceiling (`totalItems ≤ ps * totalPages` and
`ps * totalPages < totalItems + ps`) — and `totalPages = 0` exactly when
`totalItems = 0`.  Both for `fetchCustomers` of `useCustomerData.js` (where
`totalItems` is the length of the client-side filtered list) and for the
count/pages computation of `useCollectionWithPaginationInCursors.js` (where
`count` is the number of records matching the where-clauses). -/
theorem totalPages_eq_ceiling_of_totalItems :
    (∀ (docs : List Doc) (ps : Nat) (s : HookState), 0 < ps →
      ((fetchCustomers (Except.ok docs) ps s).totalItems ≤
          ps * (fetchCustomers (Except.ok docs) ps s).totalPages ∧
        ps * (fetchCustomers (Except.ok docs) ps s).totalPages <
          (fetchCustomers (Except.ok docs) ps s).totalItems + ps) ∧
      ((fetchCustomers (Except.ok docs) ps s).totalPages = 0 ↔
        (fetchCustomers (Except.ok docs) ps s).totalItems = 0)) ∧
    (∀ (coll : List Nat) (size : Nat) (s : CursorState), 0 < size →
      ((fetchData coll size s).count ≤ size * (fetchData coll size s).pagesNumber ∧
        size * (fetchData coll size s).pagesNumber <
          (fetchData coll size s).count + size) ∧
      ((fetchData coll size s).pagesNumber = 0 ↔ (fetchData coll size s).count = 0)) := by
  constructor
  · intro docs ps s hps
    exact ⟨⟨le_mul_ceilDiv _ ps hps, mul_ceilDiv_lt _ ps hps⟩,
      ceilDiv_eq_zero_iff _ ps hps⟩
  · intro coll size s hsize
    simp only [fetchData]
    split
    · exact ⟨⟨le_mul_ceilDiv _ size hsize, mul_ceilDiv_lt _ size hsize⟩,
        ceilDiv_eq_zero_iff _ size hsize⟩
    · exact ⟨⟨le_mul_ceilDiv _ size hsize, mul_ceilDiv_lt _ size hsize⟩,
        ceilDiv_eq_zero_iff _ size hsize⟩

/-- Witness for C1 at a concrete input: two documents, page size 1. -/
theorem totalPages_eq_ceiling_of_totalItems_witness :
    (0 : Nat) < 1 ∧
    ((fetchCustomers (Except.ok docsAB) 1 (initialHookState emptyFilters)).totalPages = 0 ↔
      (fetchCustomers (Except.ok docsAB) 1 (initialHookState emptyFilters)).totalItems = 0) :=
  ⟨by decide,
    (totalPages_eq_ceiling_of_totalItems.1 docsAB 1 (initialHookState emptyFilters)
      (by decide)).2⟩

/-! ## Claim C9 -/

/-- Claim C9: a customer passes the client-side filtering exactly when, for
every filter field that is non-empty after trimming, the raw (untrimmed)
filter value occurs as a substring (infix, not merely a prefix) of the
customer's field — with both sides lower-cased for `name` and `location`, and
case-sensitively for `phone` and `postCode`.  Trimming enters only the
emptiness test, never the matched value. -/
theorem filter_matches_untrimmed_substring (f : Filters) (docs : List Doc)
    (c : Customer) :
    c ∈ filteredCustomers f docs ↔
      c ∈ docs.map formatCustomer ∧
      (∀ v, f.name = some v → jsTrim v ≠ [] →
        toLowerStr v <:+: toLowerStr c.name) ∧
      (∀ v, f.phone = some v → jsTrim v ≠ [] → v <:+: c.phone) ∧
      (∀ v, f.location = some v → jsTrim v ≠ [] →
        toLowerStr v <:+: toLowerStr c.location) ∧
      (∀ v, f.postCode = some v → jsTrim v ≠ [] → v <:+: c.postCode) := by
  unfold filteredCustomers
  simp only [mem_applyFieldFilter, strIncludes_iff_infix]
  tauto

/-! ## Claim C10 -/

/-- Claim C10: every customer in a successful fetch result is the formatted
image of a fetched document: its `id` is the document id and every missing
field is defaulted (`name` to "Unnamed Customer", the other text fields to the
empty string, the timestamps to null). -/
theorem fetched_customer_fields_defaulted (docs : List Doc) (ps : Nat)
    (s : HookState) (c : Customer)
    (hc : c ∈ (fetchCustomers (Except.ok docs) ps s).customers) :
    ∃ d ∈ docs, c = formatCustomer d ∧ c.id = d.id ∧
      (d.data.name = none → c.name = unnamedCustomer) ∧
      (d.data.email = none → c.email = []) ∧
      (d.data.phone = none → c.phone = []) ∧
      (d.data.location = none → c.location = []) ∧
      (d.data.postCode = none → c.postCode = []) ∧
      (d.data.createdAt = none → c.createdAt = none) ∧
      (d.data.updatedAt = none → c.updatedAt = none) := by
  rw [fetchCustomers_ok] at hc
  have hc2 : c ∈ ((filteredCustomers s.filters docs).drop (s.currentPage * ps)).take ps := hc
  have h3 : c ∈ filteredCustomers s.filters docs :=
    (List.drop_subset _ _) ((List.take_subset _ _) hc2)
  have h4 : c ∈ docs.map formatCustomer := by
    unfold filteredCustomers at h3
    exact (applyFieldFilter_subset _ _ _)
      ((applyFieldFilter_subset _ _ _)
        ((applyFieldFilter_subset _ _ _)
          ((applyFieldFilter_subset _ _ _) h3)))
  obtain ⟨d, hd, hfc⟩ := List.mem_map.mp h4
  subst hfc
  refine ⟨d, hd, rfl, rfl, ?_, ?_, ?_, ?_, ?_, ?_, ?_⟩ <;>
    intro h <;> simp [formatCustomer, jsOrStr, h]

/-- Witness for C10: the first customer of a concrete fetched page. -/
theorem fetched_customer_fields_defaulted_witness :
    formatCustomer { id := 0, data := aliceData } ∈
      (fetchCustomers (Except.ok docsAB) 1 (initialHookState emptyFilters)).customers ∧
    ∃ d ∈ docsAB, formatCustomer { id := 0, data := aliceData } = formatCustomer d ∧
      (formatCustomer { id := 0, data := aliceData }).id = d.id ∧
      (d.data.name = none →
        (formatCustomer { id := 0, data := aliceData }).name = unnamedCustomer) ∧
      (d.data.email = none → (formatCustomer { id := 0, data := aliceData }).email = []) ∧
      (d.data.phone = none → (formatCustomer { id := 0, data := aliceData }).phone = []) ∧
      (d.data.location = none →
        (formatCustomer { id := 0, data := aliceData }).location = []) ∧
      (d.data.postCode = none →
        (formatCustomer { id := 0, data := aliceData }).postCode = []) ∧
      (d.data.createdAt = none →
        (formatCustomer { id := 0, data := aliceData }).createdAt = none) ∧
      (d.data.updatedAt = none →
        (formatCustomer { id := 0, data := aliceData }).updatedAt = none) :=
  ⟨by decide,
    fetched_customer_fields_defaulted docsAB 1 (initialHookState emptyFilters) _ (by decide)⟩

/-! ## Claim C7 -/

/-- Counterexample for C7: the filter set `{name: "al"}` is non-empty with a
single filtered field, so per the claim the planner must issue one native
filtered+ordered+limited gateway query; the code instead builds the
unfiltered full-collection query and takes the client-side path (the result
page is the in-memory filtered list). -/
theorem planner_single_field_filter_counterexample :
    fAl ≠ emptyFilters ∧
    (fAl.phone = none ∧ fAl.location = none ∧ fAl.postCode = none) ∧
    plannedQuery fAl = GatewayQuery.fullCollection ∧
    (plannedQuery fAl).isNative = false ∧
    filteredCustomers fAl docsAB = [formatCustomer { id := 0, data := aliceData }] := by
  decide

/-- Amended C7: for every filter set — empty or not — `fetchCustomers` issues
the single unfiltered, unordered, unlimited full-collection query and computes
the requested page by filtering client-side and slicing the filtered list in
memory; the native filtered path is never chosen. -/
theorem planner_always_full_collection :
    (∀ f : Filters, plannedQuery f = GatewayQuery.fullCollection ∧
        (plannedQuery f).isNative = false) ∧
    (∀ (docs : List Doc) (ps : Nat) (s : HookState),
        (fetchCustomers (Except.ok docs) ps s).customers =
          ((filteredCustomers s.filters docs).drop (s.currentPage * ps)).take ps) :=
  ⟨fun _ => ⟨rfl, rfl⟩, fun _ _ _ => rfl⟩

/-! ## Claim C8 -/

/-- Counterexample for C8: a failing delete is rethrown as the raw error (not
stored in controller state, which keeps `error = none`), and a failing fetch
stores the raw message string — no `QueryFailed`/`WriteFailed`/`NotFound`
value — while also clearing the record list to an empty result. -/
theorem delete_error_thrown_not_stored :
    (deleteCustomerOp (some "x".toList) (Except.error "boom".toList)
        (initialHookState emptyFilters)).1 = Except.error "boom".toList ∧
    (deleteCustomerOp (some "x".toList) (Except.error "boom".toList)
        (initialHookState emptyFilters)).2.error = none ∧
    (fetchCustomers (Except.error (some "boom".toList)) 10
        (initialHookState emptyFilters)).error = some "boom".toList ∧
    (fetchCustomers (Except.error (some "boom".toList)) 10
        (initialHookState emptyFilters)).customers = [] :=
  ⟨rfl, rfl, rfl, rfl⟩

/-- Amended C8: read failures store the raw error message (an untyped string,
defaulted when the exception has no message) in controller state and clear the
record list; a successful fetch clears the stored error; `deleteCustomer`
never touches controller state and, for a valid id, propagates the gateway
outcome unchanged (rethrowing failures to the caller).  No retry occurs: each
operation consumes exactly one gateway outcome. -/
theorem error_handling_behavior :
    (∀ (m : Option Str) (ps : Nat) (s : HookState),
        (fetchCustomers (Except.error m) ps s).error = some (jsOrStr m failedFetchMsg) ∧
        (fetchCustomers (Except.error m) ps s).customers = []) ∧
    (∀ (docs : List Doc) (ps : Nat) (s : HookState),
        (fetchCustomers (Except.ok docs) ps s).error = none) ∧
    (∀ (i : Option Str) (gw : Except Str Unit) (s : HookState),
        (deleteCustomerOp i gw s).2 = s) ∧
    (∀ (v : Str) (gw : Except Str Unit) (s : HookState), v ≠ [] →
        (deleteCustomerOp (some v) gw s).1 = gw) := by
  refine ⟨fun m ps s => ⟨rfl, rfl⟩, fun docs ps s => rfl, ?_, ?_⟩
  · intro i gw s
    cases i with
    | none => rfl
    | some v =>
      simp only [deleteCustomerOp]
      split
      · rfl
      · cases gw <;> rfl
  · intro v gw s hv
    simp only [deleteCustomerOp]
    rw [if_neg hv]
    cases gw <;> rfl

/-- Witness for C8's amended statement at a concrete input. -/
theorem error_handling_behavior_witness :
    "x".toList ≠ ([] : Str) ∧
    (deleteCustomerOp (some "x".toList) (Except.ok ())
        (initialHookState emptyFilters)).1 = Except.ok () :=
  ⟨by decide,
    error_handling_behavior.2.2.2 "x".toList (Except.ok ())
      (initialHookState emptyFilters) (by decide)⟩

/-! ## Claim C2 -/

/-- Counterexample for C2: two loads are initiated in order — first with
filter "al", then with filter "bo" — and their responses arrive in the
opposite order.  The later-initiated load's result is `[bob]`, but the final
record list is `[alice]`: the superseded in-flight read's resolution is not
discarded and overwrites the newer state. -/
theorem stale_load_overwrites_newer :
    (resolveFetch (initiateLoad fAl (initialHookState emptyFilters)).2
        (Except.ok docsAB) 10
        (resolveFetch (initiateLoad fBo (initiateLoad fAl (initialHookState emptyFilters)).1).2
          (Except.ok docsAB) 10
          (initiateLoad fBo (initiateLoad fAl (initialHookState emptyFilters)).1).1)).customers
      = [formatCustomer { id := 0, data := aliceData }] ∧
    (resolveFetch (initiateLoad fBo (initiateLoad fAl (initialHookState emptyFilters)).1).2
        (Except.ok docsAB) 10
        (initiateLoad fBo (initiateLoad fAl (initialHookState emptyFilters)).1).1).customers
      = [formatCustomer { id := 1, data := bobData }] ∧
    [formatCustomer { id := 0, data := aliceData }] ≠
      [formatCustomer { id := 1, data := bobData }] := by
  decide

/-- Amended C2: the hook has no staleness guard, so the last response to
*arrive* wins, regardless of initiation order: after any two overlapping fetch
resolutions in which the later arrival succeeds, the read state (record list,
totals, error) is exactly what the later-arriving request computes, and an
earlier-initiated request resolving last therefore overwrites the result of a
later-initiated one. -/
theorem last_resolved_fetch_determines_read_state
    (r1 r2 : FetchReq) (res1 : Except (Option Str) (List Doc))
    (docs2 : List Doc) (ps : Nat) (s : HookState) :
    (resolveFetch r2 (Except.ok docs2) ps (resolveFetch r1 res1 ps s)).customers =
        (resolveFetch r2 (Except.ok docs2) ps s).customers ∧
    (resolveFetch r2 (Except.ok docs2) ps (resolveFetch r1 res1 ps s)).totalItems =
        (resolveFetch r2 (Except.ok docs2) ps s).totalItems ∧
    (resolveFetch r2 (Except.ok docs2) ps (resolveFetch r1 res1 ps s)).totalPages =
        (resolveFetch r2 (Except.ok docs2) ps s).totalPages ∧
    (resolveFetch r2 (Except.ok docs2) ps (resolveFetch r1 res1 ps s)).error =
        (resolveFetch r2 (Except.ok docs2) ps s).error := by
  cases res1 <;> exact ⟨rfl, rfl, rfl, rfl⟩

/-! ## Claim C4 -/

/-- Counterexample for C4: from a state on page 1 (reached with empty filters,
page size 1), a load with the filter set `{name: "al"}` leaves the page index
at 1 — not 0 — and displays the page-1 slice of the newly filtered list, which
is empty, rather than page 0 (`[alice]`). -/
theorem load_does_not_reset_page_counterexample :
    (loadOp fAl (Except.ok docsAB) 1
        (onNextPage (fetchCustomers (Except.ok docsAB) 1
          (initialHookState emptyFilters)))).currentPage = 1 ∧
    (loadOp fAl (Except.ok docsAB) 1
        (onNextPage (fetchCustomers (Except.ok docsAB) 1
          (initialHookState emptyFilters)))).customers = [] ∧
    filteredCustomers fAl docsAB = [formatCustomer { id := 0, data := aliceData }] := by
  decide

/-- Amended C4: a load with new filters installs the filters but leaves the
page index unchanged, refetching the *current* page of the newly filtered
list; the cursor hook's filter-change refetch does rebuild its ledger from
page 0 (and shows page-0 records) but likewise never resets its page index. -/
theorem load_keeps_current_page :
    (∀ (f : Filters) (res : Except (Option Str) (List Doc)) (ps : Nat)
        (s : HookState),
        (loadOp f res ps s).currentPage = s.currentPage ∧
        (loadOp f res ps s).filters = f) ∧
    (∀ (f : Filters) (docs : List Doc) (ps : Nat) (s : HookState),
        (loadOp f (Except.ok docs) ps s).customers =
          ((filteredCustomers f docs).drop (s.currentPage * ps)).take ps) ∧
    (∀ (coll : List Nat) (size : Nat) (s : CursorState),
        (fetchData coll size s).page = s.page ∧
        (pageSlice coll 0 size ≠ [] →
          (fetchData coll size s).ledger = [(0, (pageSlice coll 0 size).length - 1)])) := by
  refine ⟨?_, fun f docs ps s => rfl, ?_⟩
  · intro f res ps s
    cases res <;> exact ⟨rfl, rfl⟩
  · intro coll size s
    simp only [fetchData]
    split
    · next h => exact ⟨rfl, fun hne => absurd h hne⟩
    · exact ⟨rfl, fun _ => rfl⟩

/-- Witness for C4's amended statement at a concrete input. -/
theorem load_keeps_current_page_witness :
    pageSlice [0, 1, 2] 0 2 ≠ [] ∧
    (fetchData [0, 1, 2] 2 initialCursorState).ledger =
      [(0, (pageSlice [0, 1, 2] 0 2).length - 1)] :=
  ⟨by decide,
    (load_keeps_current_page.2.2 [0, 1, 2] 2 initialCursorState).2 (by decide)⟩

/-! ## Claim C3 -/

/-- Counterexample for C3: a state reachable by load → next → load violates
`pageIndex < max(totalPages, 1)`.  With page size 1 and two matching records,
`next()` reaches page 1; a subsequent load with the filter `{name: "al"}`
shrinks the result to one record (`totalPages = 1`) while leaving the page
index at 1. -/
theorem page_invariant_violated_after_filter_shrink :
    (loadOp fAl (Except.ok docsAB) 1
        (onNextPage (fetchCustomers (Except.ok docsAB) 1
          (initialHookState emptyFilters)))).totalPages = 1 ∧
    (loadOp fAl (Except.ok docsAB) 1
        (onNextPage (fetchCustomers (Except.ok docsAB) 1
          (initialHookState emptyFilters)))).currentPage = 1 ∧
    ¬ ((loadOp fAl (Except.ok docsAB) 1
        (onNextPage (fetchCustomers (Except.ok docsAB) 1
          (initialHookState emptyFilters)))).currentPage <
      max (loadOp fAl (Except.ok docsAB) 1
        (onNextPage (fetchCustomers (Except.ok docsAB) 1
          (initialHookState emptyFilters)))).totalPages 1) := by
  decide

/-- Amended C3: `next()` and `previous()` do preserve the bound
`pageIndex < max(totalPages, 1)` (and `pageIndex ≥ 0` holds by construction);
an effective `next()` increments `pageIndex` by exactly 1, never past
`totalPages - 1`, and an out-of-range `next()` is a no-op — likewise for the
cursor hook's next-page handler.  The bound is *not* an invariant of all
reachable states, because a load that shrinks `totalPages` (filter change or
delete-refresh) leaves `pageIndex` unchanged. -/
theorem next_prev_preserve_page_bounds :
    (∀ s : HookState, s.currentPage < max s.totalPages 1 →
        (onNextPage s).currentPage < max (onNextPage s).totalPages 1 ∧
        (onPrevPage s).currentPage < max (onPrevPage s).totalPages 1) ∧
    (∀ s : HookState, s.currentPage < s.totalPages - 1 →
        (onNextPage s).currentPage = s.currentPage + 1 ∧
        (onNextPage s).currentPage ≤ s.totalPages - 1) ∧
    (∀ s : HookState, ¬ s.currentPage < s.totalPages - 1 → onNextPage s = s) ∧
    (∀ (coll : List Nat) (size : Nat) (s : CursorState),
        s.loading = false → s.page + 1 < s.pagesNumber →
        pageSlice coll (s.lastVisible + 1) size ≠ [] →
        (nextPage coll size s).page = s.page + 1 ∧
        (nextPage coll size s).page ≤ s.pagesNumber - 1) := by
  refine ⟨?_, ?_, ?_, ?_⟩
  · intro s h
    constructor
    · unfold onNextPage
      split
      · next hlt =>
        show s.currentPage + 1 < max s.totalPages 1
        omega
      · exact h
    · unfold onPrevPage
      split
      · next hlt =>
        show s.currentPage - 1 < max s.totalPages 1
        omega
      · exact h
  · intro s h
    unfold onNextPage
    rw [if_pos h]
    exact ⟨rfl, by show s.currentPage + 1 ≤ s.totalPages - 1; omega⟩
  · intro s h
    unfold onNextPage
    rw [if_neg h]
  · intro coll size s hload heff hne
    have hguard : ¬ (s.loading = true ∨ s.pagesNumber - 1 ≤ s.page) := by
      rintro (h | h)
      · rw [hload] at h
        simp at h
      · omega
    simp only [nextPage]
    rw [if_neg hguard, if_neg hne]
    exact ⟨rfl, by show s.page + 1 ≤ s.pagesNumber - 1; omega⟩

/-- Witness for C3's amended statement at a concrete input. -/
theorem next_prev_preserve_page_bounds_witness :
    ((fetchCustomers (Except.ok docsAB) 1 (initialHookState emptyFilters)).currentPage <
        (fetchCustomers (Except.ok docsAB) 1 (initialHookState emptyFilters)).totalPages - 1) ∧
    (onNextPage (fetchCustomers (Except.ok docsAB) 1
        (initialHookState emptyFilters))).currentPage =
      (fetchCustomers (Except.ok docsAB) 1 (initialHookState emptyFilters)).currentPage + 1 :=
  ⟨by decide,
    (next_prev_preserve_page_bounds.2.1
      (fetchCustomers (Except.ok docsAB) 1 (initialHookState emptyFilters))
      (by decide)).1⟩

/-! ## Claim C5 -/

/-- Counterexample for C5: with page size 1 and two records, the state on
page 1 (the last page, non-zero, holding exactly one record) is refreshed
after deleting that record; the claim demands `pageIndex` clamped to
`totalPages - 2 = 0`, but the code leaves it at 1, out of range, with an
empty visible page. -/
theorem delete_last_page_sole_record_counterexample :
    (removeRefresh docsAB 1 1
        (fetchCustomers (Except.ok docsAB) 1
          (onNextPage (fetchCustomers (Except.ok docsAB) 1
            (initialHookState emptyFilters))))).totalPages = 1 ∧
    (removeRefresh docsAB 1 1
        (fetchCustomers (Except.ok docsAB) 1
          (onNextPage (fetchCustomers (Except.ok docsAB) 1
            (initialHookState emptyFilters))))).currentPage = 1 ∧
    ¬ ((removeRefresh docsAB 1 1
        (fetchCustomers (Except.ok docsAB) 1
          (onNextPage (fetchCustomers (Except.ok docsAB) 1
            (initialHookState emptyFilters))))).currentPage = 0) ∧
    (removeRefresh docsAB 1 1
        (fetchCustomers (Except.ok docsAB) 1
          (onNextPage (fetchCustomers (Except.ok docsAB) 1
            (initialHookState emptyFilters))))).customers = [] := by
  decide

/-- Amended C5: deleting the sole record of the last, non-zero page and
refreshing leaves `pageIndex` *unchanged* (no clamping exists): the new
`totalPages` is one less, the page index now equals it — violating
`pageIndex < max(totalPages, 1)` — and the visible page is empty. -/
theorem delete_refresh_leaves_page_out_of_range
    (docs : List Doc) (i : Nat) (ps : Nat) (s : HookState)
    (hps : 0 < ps)
    (hlen : (filteredCustomers s.filters docs).length = (s.totalPages - 1) * ps + 1)
    (hpage : s.currentPage = s.totalPages - 1)
    (hnz : 1 ≤ s.currentPage)
    (hrem : (filteredCustomers s.filters (removeDoc docs i)).length =
            (filteredCustomers s.filters docs).length - 1) :
    (removeRefresh docs i ps s).currentPage = s.currentPage ∧
    (removeRefresh docs i ps s).totalPages = s.totalPages - 1 ∧
    (removeRefresh docs i ps s).customers = [] ∧
    ¬ ((removeRefresh docs i ps s).currentPage <
        max (removeRefresh docs i ps s).totalPages 1) := by
  have hlen2 : (filteredCustomers s.filters (removeDoc docs i)).length =
      (s.totalPages - 1) * ps := by omega
  have h1 : (removeRefresh docs i ps s).currentPage = s.currentPage := rfl
  have h2 : (removeRefresh docs i ps s).totalPages = s.totalPages - 1 := by
    show ceilDiv (filteredCustomers s.filters (removeDoc docs i)).length ps =
      s.totalPages - 1
    rw [hlen2]
    exact ceilDiv_mul_cancel _ ps hps
  have h3 : (removeRefresh docs i ps s).customers = [] := by
    show ((filteredCustomers s.filters (removeDoc docs i)).drop
      (s.currentPage * ps)).take ps = []
    have hdrop : (filteredCustomers s.filters (removeDoc docs i)).drop
        (s.currentPage * ps) = [] :=
      List.drop_eq_nil_of_le (by rw [hlen2, hpage])
    rw [hdrop, List.take_nil]
  refine ⟨h1, h2, h3, ?_⟩
  rw [h1, h2]
  omega

/-- Witness for C5's amended statement: the concrete scenario of the
counterexample satisfies every hypothesis. -/
theorem delete_refresh_leaves_page_out_of_range_witness :
    ((0 : Nat) < 1 ∧
      (filteredCustomers (fetchCustomers (Except.ok docsAB) 1
          (onNextPage (fetchCustomers (Except.ok docsAB) 1
            (initialHookState emptyFilters)))).filters docsAB).length =
        ((fetchCustomers (Except.ok docsAB) 1
          (onNextPage (fetchCustomers (Except.ok docsAB) 1
            (initialHookState emptyFilters)))).totalPages - 1) * 1 + 1) ∧
    ¬ ((removeRefresh docsAB 1 1
        (fetchCustomers (Except.ok docsAB) 1
          (onNextPage (fetchCustomers (Except.ok docsAB) 1
            (initialHookState emptyFilters))))).currentPage <
      max (removeRefresh docsAB 1 1
        (fetchCustomers (Except.ok docsAB) 1
          (onNextPage (fetchCustomers (Except.ok docsAB) 1
            (initialHookState emptyFilters))))).totalPages 1) :=
  ⟨⟨by decide, by decide⟩,
    (delete_refresh_leaves_page_out_of_range docsAB 1 1
      (fetchCustomers (Except.ok docsAB) 1
        (onNextPage (fetchCustomers (Except.ok docsAB) 1
          (initialHookState emptyFilters))))
      (by decide) (by decide) (by decide) (by decide) (by decide)).2.2.2⟩

/-! ## Claim C6 -/

theorem prevPage_data_of_page_one (coll : List Nat) (size : Nat) (s : CursorState)
    (hload : s.loading = false) (hp : s.page = 1)
    (hne : pageSlice coll 0 size ≠ []) :
    (prevPage coll size s).data = pageSlice coll 0 size := by
  have hguard : ¬ (s.loading = true ∨ s.page ≤ 0) := by
    rintro (h | h)
    · rw [hload] at h
      simp at h
    · omega
  simp only [prevPage]
  rw [if_neg hguard, if_neg (by omega : ¬ 1 < s.page), if_neg hne]

theorem prevPage_data_of_page_gt_one (coll : List Nat) (size : Nat) (s : CursorState)
    (hload : s.loading = false) (hp : 1 < s.page)
    (hne : pageSlice coll (s.firstVisible - size)
      (s.firstVisible - (s.firstVisible - size)) ≠ []) :
    (prevPage coll size s).data =
      pageSlice coll (s.firstVisible - size)
        (s.firstVisible - (s.firstVisible - size)) := by
  have hguard : ¬ (s.loading = true ∨ s.page ≤ 0) := by
    rintro (h | h)
    · rw [hload] at h
      simp at h
    · omega
  simp only [prevPage]
  rw [if_neg hguard, if_pos hp, if_neg hne]

/-- Claim C6: from any consistently positioned cursor-hook state in which
`next()` is effective (the guard passes and the forward query is non-empty,
which follows from `page + 1 < pagesNumber`) and with no mutation in between,
`next()` followed immediately by `previous()` restores exactly the record set
that was visible before the `next()` call. -/
theorem next_then_prev_restores_page_data
    (coll : List Nat) (size : Nat) (s : CursorState)
    (hsize : 0 < size) (hvalid : OnPage coll size s)
    (heff : s.page + 1 < s.pagesNumber) :
    (prevPage coll size (nextPage coll size s)).data = s.data := by
  obtain ⟨hload, hcount, hpages, hfirst, hlast, hdata, hne⟩ := hvalid
  have hlt : size * (s.page + 1) < coll.length := by
    have h1 := mul_ceilDiv_lt coll.length size hsize
    have h2 : s.page + 2 ≤ ceilDiv coll.length size := by omega
    have h3 : size * (s.page + 2) ≤ size * ceilDiv coll.length size :=
      Nat.mul_le_mul_left size h2
    have h4 : size * (s.page + 2) = size * (s.page + 1) + size := by
      rw [Nat.mul_add, Nat.mul_add]
      omega
    omega
  have hmin : min (size * (s.page + 1)) coll.length = size * (s.page + 1) :=
    Nat.min_eq_left (Nat.le_of_lt hlt)
  have hlastv : s.lastVisible + 1 = size * (s.page + 1) := by rw [hlast, hmin]
  have hlen1 : (pageSlice coll (s.lastVisible + 1) size).length =
      min size (coll.length - (s.lastVisible + 1)) := by
    simp [pageSlice]
  have hne1 : pageSlice coll (s.lastVisible + 1) size ≠ [] := by
    have hpos : 0 < (pageSlice coll (s.lastVisible + 1) size).length := by
      rw [hlen1]
      omega
    exact List.length_pos.mp hpos
  have hguard : ¬ (s.loading = true ∨ s.pagesNumber - 1 ≤ s.page) := by
    rintro (h | h)
    · rw [hload] at h
      simp at h
    · omega
  have hnext : nextPage coll size s =
      { s with data := pageSlice coll (s.lastVisible + 1) size,
               firstVisible := s.lastVisible + 1,
               lastVisible := s.lastVisible + (pageSlice coll (s.lastVisible + 1) size).length,
               ledger := s.ledger ++
                 [(s.lastVisible + 1,
                   s.lastVisible + (pageSlice coll (s.lastVisible + 1) size).length)],
               page := s.page + 1 } := by
    simp only [nextPage]
    rw [if_neg hguard, if_neg hne1]
  have tload : (nextPage coll size s).loading = false := by
    rw [hnext]
    exact hload
  have tpage : (nextPage coll size s).page = s.page + 1 := by
    rw [hnext]
  have tfirst : (nextPage coll size s).firstVisible = s.lastVisible + 1 := by
    rw [hnext]
  rcases Nat.eq_zero_or_pos s.page with hp | hp
  · have hne0 : pageSlice coll 0 size ≠ [] := by
      have hd0 : s.data = pageSlice coll 0 size := by
        rw [hdata, hp, Nat.mul_zero]
      rw [← hd0]
      exact hne
    rw [prevPage_data_of_page_one coll size (nextPage coll size s) tload
      (by rw [tpage, hp]) hne0]
    rw [hdata, hp, Nat.mul_zero]
  · have e1 : size * (s.page + 1) - size = size * s.page := by
      have hm := Nat.mul_add size s.page 1
      omega
    have e3 : size * (s.page + 1) - size * s.page = size := by
      have hm := Nat.mul_add size s.page 1
      omega
    have hne2 : pageSlice coll ((nextPage coll size s).firstVisible - size)
        ((nextPage coll size s).firstVisible -
          ((nextPage coll size s).firstVisible - size)) ≠ [] := by
      rw [tfirst, hlastv, e1, e3, ← hdata]
      exact hne
    rw [prevPage_data_of_page_gt_one coll size (nextPage coll size s) tload
      (by rw [tpage]; omega) hne2]
    rw [tfirst, hlastv, e1, e3]
    exact hdata.symm

/-- Witness for C6: a three-record collection with page size 2, positioned on
page 0 by the initial fetch. -/
theorem next_then_prev_restores_page_data_witness :
    ((0 : Nat) < 2 ∧
      OnPage [10, 11, 12] 2 (fetchData [10, 11, 12] 2 initialCursorState) ∧
      (fetchData [10, 11, 12] 2 initialCursorState).page + 1 <
        (fetchData [10, 11, 12] 2 initialCursorState).pagesNumber) ∧
    (prevPage [10, 11, 12] 2 (nextPage [10, 11, 12] 2
        (fetchData [10, 11, 12] 2 initialCursorState))).data =
      (fetchData [10, 11, 12] 2 initialCursorState).data :=
  ⟨⟨by decide, by decide, by decide⟩,
    next_then_prev_restores_page_data [10, 11, 12] 2
      (fetchData [10, 11, 12] 2 initialCursorState)
      (by decide) (by decide) (by decide)⟩
